import Mathlib

/-!
Verification of the image-resizer library (gabrielSantos1101/image-resizer).

Part 1: shallow embedding of the Zustand session store (src/src/lib/store.ts,
first variant, the one with blob-URL tracking).  The store holds the dialog
state, the pending promise continuations and the tracked blob URLs.  We model
promise continuations by the numeric identity of the promise they would
settle (each `open` creates a fresh promise), and we model the observable
side effects of a transition (settling a promise, revoking a blob URL) as an
explicit event list returned next to the new state.  `URL.revokeObjectURL`
failures are swallowed by a try/catch in the source, so revocation is modelled
as an infallible event emission.
-/

namespace ImageResizer

/-- Observable side effects of one store transition: a promise being resolved
with a blob URL, a promise being rejected with an error message, or a tracked
blob URL being revoked. -/
inductive Event where
  | resolved (promiseId : Nat) (blobUrl : String)
  | rejected (promiseId : Nat) (message : String)
  | revoked (url : String)
deriving DecidableEq

/-- `settlesB e p` holds when event `e` settles (resolves or rejects) the
promise with identity `p`. -/
def settlesB (e : Event) (p : Nat) : Bool :=
  match e with
  | .resolved q _ => q = p
  | .rejected q _ => q = p
  | .revoked _ => false

/-- The store state of src/src/lib/store.ts: dialog open flag, current image
URL, the pending resolve/reject continuations (modelled by the identity of the
promise each would settle), the tracked blob URLs (a JS `Set`, modelled as a
duplicate-free insertion-ordered list), plus a counter supplying fresh promise
identities.  `classNames`/`config` carry no behaviour relevant to the claims
and are omitted. -/
structure StoreState where
  isOpen : Bool
  imageUrl : Option String
  pendingResolve : Option Nat
  pendingReject : Option Nat
  blobUrls : List String
  nextPromiseId : Nat
deriving DecidableEq

/-- The store's initial state. -/
def initialState : StoreState :=
  ⟨false, none, none, none, [], 0⟩

/-- `revokeBlobUrls`: revokes every tracked blob URL (each revocation wrapped
in try/catch in the source, so no error escapes) and replaces the set with a
fresh empty one. -/
def revokeBlobUrls (s : StoreState) : StoreState × List Event :=
  ({ s with blobUrls := [] }, s.blobUrls.map Event.revoked)

/-- `open(imageUrl, classNames, config)`: first calls `revokeBlobUrls`, then
creates a new promise and stores its resolve/reject continuations, marking the
dialog open.  (Named `openAction` because `open` is a Lean keyword.)  Note the
source never invokes the previous `pendingResolve`/`pendingReject`: they are
simply overwritten by `set`. -/
def openAction (s : StoreState) (imageUrl : String) : StoreState × List Event :=
  let r := revokeBlobUrls s
  let p := r.1.nextPromiseId
  (⟨true, some imageUrl, some p, some p, r.1.blobUrls, p + 1⟩, r.2)

/-- `close()`: closes the dialog and clears the continuations without invoking
either; `blobUrls` is untouched. -/
def close (s : StoreState) : StoreState × List Event :=
  ({ s with isOpen := false, imageUrl := none,
            pendingResolve := none, pendingReject := none }, [])

/-- `save(blobUrl)`: invokes `pendingResolve` with the blob URL when present,
then closes the dialog and clears the continuations.  The source does not
touch `blobUrls` here. -/
def save (s : StoreState) (blobUrl : String) : StoreState × List Event :=
  let ev := match s.pendingResolve with
    | some p => [Event.resolved p blobUrl]
    | none => []
  ({ s with isOpen := false, imageUrl := none,
            pendingResolve := none, pendingReject := none }, ev)

/-- `cancel(error)`: invokes `pendingReject` with the error when present, then
calls `revokeBlobUrls`, then closes the dialog and clears the continuations. -/
def cancel (s : StoreState) (message : String) : StoreState × List Event :=
  let ev := match s.pendingReject with
    | some p => [Event.rejected p message]
    | none => []
  let r := revokeBlobUrls s
  ({ r.1 with isOpen := false, imageUrl := none,
              pendingResolve := none, pendingReject := none }, ev ++ r.2)

/-- `addBlobUrl(blobUrl)`: inserts the URL into the tracked set
(`new Set([...state.blobUrls, blobUrl])` deduplicates). -/
def addBlobUrl (s : StoreState) (blobUrl : String) : StoreState :=
  { s with blobUrls := if blobUrl ∈ s.blobUrls then s.blobUrls else s.blobUrls ++ [blobUrl] }

/-- The error message built by the dialog's image-load failure handler
(src/unnamed/part_005, store-connected variant): a JS template literal
interpolating the attempted URL. -/
def loadFailureMessage (imageUrl : String) : String :=
  "Failed to load image from URL: " ++ imageUrl

/-- The dialog's handler for a failed source-image load inside `handleSave`
(the `img.onerror` rejection is caught and routed to the store's `cancel`
with `loadFailureMessage imageUrl`). -/
def handleLoadFailure (s : StoreState) (imageUrl : String) : StoreState × List Event :=
  cancel s (loadFailureMessage imageUrl)

/-- One store action, for reasoning about arbitrary future transition
sequences. -/
inductive Action where
  | aOpen (imageUrl : String)
  | aClose
  | aSave (blobUrl : String)
  | aCancel (message : String)
  | aAdd (blobUrl : String)
  | aRevoke
deriving DecidableEq

/-- Apply one action to a store state. -/
def step (s : StoreState) (a : Action) : StoreState × List Event :=
  match a with
  | .aOpen u => openAction s u
  | .aClose => close s
  | .aSave u => save s u
  | .aCancel m => cancel s m
  | .aAdd u => (addBlobUrl s u, [])
  | .aRevoke => revokeBlobUrls s

/-- Run a sequence of actions, accumulating all emitted events in order. -/
def run (s : StoreState) : List Action → StoreState × List Event
  | [] => (s, [])
  | a :: rest =>
    let r := step s a
    let r2 := run r.1 rest
    (r2.1, r.2 ++ r2.2)

/-- Promise `p` can no longer be settled from state `s`: neither continuation
refers to it, and every promise created in the future gets a strictly larger
identity. -/
def Unsettleable (s : StoreState) (p : Nat) : Prop :=
  s.pendingResolve ≠ some p ∧ s.pendingReject ≠ some p ∧ p < s.nextPromiseId

theorem step_unsettleable (s : StoreState) (a : Action) (p : Nat)
    (h : Unsettleable s p) :
    Unsettleable (step s a).1 p ∧ ∀ e ∈ (step s a).2, settlesB e p = false := by
  obtain ⟨h1, h2, h3⟩ := h
  cases a with
  | aOpen u =>
    refine ⟨⟨?_, ?_, ?_⟩, ?_⟩
    · simp only [step, openAction, revokeBlobUrls]
      intro hc
      exact absurd (Option.some.inj hc) (Nat.ne_of_gt h3)
    · simp only [step, openAction, revokeBlobUrls]
      intro hc
      exact absurd (Option.some.inj hc) (Nat.ne_of_gt h3)
    · simp only [step, openAction, revokeBlobUrls]
      omega
    · intro e he
      simp only [step, openAction, revokeBlobUrls, List.mem_map] at he
      obtain ⟨u2, _, rfl⟩ := he
      rfl
  | aClose =>
    refine ⟨⟨by simp [step, close], by simp [step, close], by simpa [step, close] using h3⟩, ?_⟩
    intro e he
    simp [step, close] at he
  | aSave u =>
    refine ⟨⟨by simp [step, save], by simp [step, save], by simpa [step, save] using h3⟩, ?_⟩
    intro e he
    simp only [step, save] at he
    revert he
    cases hq : s.pendingResolve with
    | none => intro he; simp at he
    | some q =>
      intro he
      simp only [List.mem_singleton] at he
      subst he
      simp only [settlesB, decide_eq_false_iff_not]
      intro hqp
      exact h1 (by rw [hq, hqp])
  | aCancel m =>
    refine ⟨⟨by simp [step, cancel, revokeBlobUrls], by simp [step, cancel, revokeBlobUrls],
        by simpa [step, cancel, revokeBlobUrls] using h3⟩, ?_⟩
    intro e he
    simp only [step, cancel, revokeBlobUrls, List.mem_append, List.mem_map] at he
    rcases he with he | ⟨u2, _, rfl⟩
    · revert he
      cases hq : s.pendingReject with
      | none => intro he; simp at he
      | some q =>
        intro he
        simp only [List.mem_singleton] at he
        subst he
        simp only [settlesB, decide_eq_false_iff_not]
        intro hqp
        exact h2 (by rw [hq, hqp])
    · rfl
  | aAdd u =>
    refine ⟨⟨by simpa [step, addBlobUrl] using h1, by simpa [step, addBlobUrl] using h2,
        by simpa [step, addBlobUrl] using h3⟩, ?_⟩
    intro e he
    simp [step] at he
  | aRevoke =>
    refine ⟨⟨by simpa [step, revokeBlobUrls] using h1, by simpa [step, revokeBlobUrls] using h2,
        by simpa [step, revokeBlobUrls] using h3⟩, ?_⟩
    intro e he
    simp only [step, revokeBlobUrls, List.mem_map] at he
    obtain ⟨u2, _, rfl⟩ := he
    rfl

theorem run_no_settle (p : Nat) :
    ∀ (acts : List Action) (s : StoreState), Unsettleable s p →
      ∀ e ∈ (run s acts).2, settlesB e p = false := by
  intro acts
  induction acts with
  | nil =>
    intro s _ e he
    simp [run] at he
  | cons a rest ih =>
    intro s hs e he
    simp only [run, List.mem_append] at he
    obtain ⟨hs2, hev⟩ := step_unsettleable s a p hs
    rcases he with he | he
    · exact hev e he
    · exact ih (step s a).1 hs2 e he

theorem closed_state_fixed (s : StoreState)
    (hr : s.pendingResolve = none) (hj : s.pendingReject = none)
    (hOpen : s.isOpen = false) (hiu : s.imageUrl = none) :
    ({ s with isOpen := false, imageUrl := none,
              pendingResolve := none, pendingReject := none } : StoreState) = s := by
  cases s
  simp_all

/-- C1 counterexample: starting from the initial store, `open "a"` creates
promise 0; a superseding `open "b"` emits no settlement of promise 0 at all
(no `Superseded` rejection), and the second session's promise (promise 1)
then settles via `save`.  Contradicts the claim that a superseding `open`
first rejects the existing pending continuation before the new session's
promise can ever settle. -/
theorem claim_c1_counterexample :
    ((run initialState [Action.aOpen "a", Action.aOpen "b", Action.aSave "h"]).2.filter
        (fun e => settlesB e 0)) = [] ∧
    Event.resolved 1 "h" ∈
      (run initialState [Action.aOpen "a", Action.aOpen "b", Action.aSave "h"]).2 := by
  decide

/-- C1 (amended): calling `open` while a session is already open with a
pending continuation releases the tracked resources (it revokes exactly the
tracked blob URLs and empties the set) and installs a fresh pending
continuation, but it never rejects the existing one: the `open` emits no
settlement of the prior promise, and the prior promise never settles in any
subsequent sequence of store actions — it is silently orphaned. -/
theorem claim_c1_amended (s : StoreState) (p : Nat) (url : String)
    (hOpen : s.isOpen = true) (hr : s.pendingResolve = some p)
    (hj : s.pendingReject = some p) (hp : p < s.nextPromiseId) :
    (openAction s url).2 = s.blobUrls.map Event.revoked ∧
    (∀ e ∈ (openAction s url).2, settlesB e p = false) ∧
    (openAction s url).1.isOpen = true ∧
    (openAction s url).1.pendingResolve = some s.nextPromiseId ∧
    (openAction s url).1.pendingReject = some s.nextPromiseId ∧
    (openAction s url).1.blobUrls = [] ∧
    ∀ acts : List Action, ∀ e ∈ (run (openAction s url).1 acts).2,
      settlesB e p = false := by
  refine ⟨rfl, ?_, rfl, rfl, rfl, rfl, ?_⟩
  · intro e he
    simp only [openAction, revokeBlobUrls, List.mem_map] at he
    obtain ⟨u2, _, rfl⟩ := he
    rfl
  · intro acts e he
    refine run_no_settle p acts (openAction s url).1 ⟨?_, ?_, ?_⟩ e he
    · simp only [openAction, revokeBlobUrls]
      intro hc
      exact absurd (Option.some.inj hc) (Nat.ne_of_gt hp)
    · simp only [openAction, revokeBlobUrls]
      intro hc
      exact absurd (Option.some.inj hc) (Nat.ne_of_gt hp)
    · simp only [openAction, revokeBlobUrls]
      omega

/-- C1 amended, witnessed at a concrete open session (promise 0 pending, one
tracked blob URL) superseded by `open "b"`. -/
theorem claim_c1_amended_witness :
    (openAction ⟨true, some "a", some 0, some 0, ["h"], 1⟩ "b").2 =
        (["h"] : List String).map Event.revoked ∧
    (∀ e ∈ (openAction ⟨true, some "a", some 0, some 0, ["h"], 1⟩ "b").2,
        settlesB e 0 = false) ∧
    (openAction ⟨true, some "a", some 0, some 0, ["h"], 1⟩ "b").1.isOpen = true ∧
    (openAction ⟨true, some "a", some 0, some 0, ["h"], 1⟩ "b").1.pendingResolve = some 1 ∧
    (openAction ⟨true, some "a", some 0, some 0, ["h"], 1⟩ "b").1.pendingReject = some 1 ∧
    (openAction ⟨true, some "a", some 0, some 0, ["h"], 1⟩ "b").1.blobUrls = [] ∧
    ∀ acts : List Action,
      ∀ e ∈ (run (openAction ⟨true, some "a", some 0, some 0, ["h"], 1⟩ "b").1 acts).2,
        settlesB e 0 = false :=
  claim_c1_amended ⟨true, some "a", some 0, some 0, ["h"], 1⟩ 0 "b" rfl rfl rfl
    (by decide)

/-- C2 counterexample: open a session, track handle "h", save it (the promise
resolves with "h"), then open a new session: the superseding `open` revokes
"h" — the handle returned by `save` IS released by a later transition,
contradicting the claim that the saved handle is excluded from the release
set and never released afterwards. -/
theorem claim_c2_counterexample :
    Event.revoked "h" ∈
      (run initialState
        [Action.aOpen "a", Action.aAdd "h", Action.aSave "h", Action.aOpen "b"]).2 := by
  decide

/-- C2 (amended): `save` fulfills the pending continuation with the handle and
transitions to Closed, but performs no release and no exclusion: it emits no
revocation, and the tracked blob-URL set — including the returned handle, if
it was tracked — is left exactly as it was, so the next revocation (a
subsequent `open` or `cancel`) releases the returned handle along with the
rest. -/
theorem claim_c2_amended (s : StoreState) (p : Nat) (url : String)
    (hr : s.pendingResolve = some p) :
    (save s url).2 = [Event.resolved p url] ∧
    (save s url).1.isOpen = false ∧
    (save s url).1.pendingResolve = none ∧
    (save s url).1.pendingReject = none ∧
    (save s url).1.blobUrls = s.blobUrls := by
  simp [save, hr]

/-- C2 amended, witnessed at a concrete open session saving the tracked
handle "h". -/
theorem claim_c2_amended_witness :
    (save ⟨true, some "a", some 0, some 0, ["h"], 1⟩ "h").2 = [Event.resolved 0 "h"] ∧
    (save ⟨true, some "a", some 0, some 0, ["h"], 1⟩ "h").1.isOpen = false ∧
    (save ⟨true, some "a", some 0, some 0, ["h"], 1⟩ "h").1.pendingResolve = none ∧
    (save ⟨true, some "a", some 0, some 0, ["h"], 1⟩ "h").1.pendingReject = none ∧
    (save ⟨true, some "a", some 0, some 0, ["h"], 1⟩ "h").1.blobUrls = ["h"] :=
  claim_c2_amended ⟨true, some "a", some 0, some 0, ["h"], 1⟩ 0 "h" rfl

/-- C7 counterexample: after `open "a"`, `addBlobUrl "h"`, `save "h"` the
store is Closed (both continuations cleared), yet calling `cancel` changes
the state: it empties the tracked blob-URL set (revoking "h").  So `cancel`
while Closed is not a no-op, contradicting that part of the claim. -/
theorem claim_c7_counterexample :
    (run initialState [Action.aOpen "a", Action.aAdd "h", Action.aSave "h"]).1.pendingResolve
        = none ∧
    (run initialState [Action.aOpen "a", Action.aAdd "h", Action.aSave "h"]).1.pendingReject
        = none ∧
    (cancel (run initialState [Action.aOpen "a", Action.aAdd "h", Action.aSave "h"]).1
        "e").1.blobUrls ≠
      (run initialState [Action.aOpen "a", Action.aAdd "h", Action.aSave "h"]).1.blobUrls := by
  decide

/-- C7 (amended): while the store is Closed (no pending continuation), `save`
and `cancel` invoke no continuation and raise no error; `save` leaves the
state completely unchanged, while `cancel` additionally revokes and clears the
tracked blob URLs (its only events are revocations).  After one `open`, a
first `save` settles the freshly created promise exactly once and a second
consecutive `save` emits no event at all. -/
theorem claim_c7_amended (s : StoreState) (u m iu u1 u2 : String)
    (hr : s.pendingResolve = none) (hj : s.pendingReject = none)
    (hOpen : s.isOpen = false) (hiu : s.imageUrl = none) :
    save s u = (s, []) ∧
    (cancel s m).2 = s.blobUrls.map Event.revoked ∧
    (cancel s m).1.blobUrls = [] ∧
    (save (openAction s iu).1 u1).2 = [Event.resolved s.nextPromiseId u1] ∧
    (save (save (openAction s iu).1 u1).1 u2).2 = [] := by
  refine ⟨?_, ?_, rfl, rfl, rfl⟩
  · simp only [save, hr]
    exact congrArg (fun t => (t, ([] : List Event)))
      (closed_state_fixed s hr hj hOpen hiu)
  · simp [cancel, revokeBlobUrls, hj]

/-- C7 amended, witnessed at the concrete Closed state reached by
`open "a"; addBlobUrl "h"; save "h"` (which still tracks "h"). -/
theorem claim_c7_amended_witness :
    save ⟨false, none, none, none, ["h"], 1⟩ "x" =
        (⟨false, none, none, none, ["h"], 1⟩, []) ∧
    (cancel ⟨false, none, none, none, ["h"], 1⟩ "e").2 =
        (["h"] : List String).map Event.revoked ∧
    (cancel ⟨false, none, none, none, ["h"], 1⟩ "e").1.blobUrls = [] ∧
    (save (openAction ⟨false, none, none, none, ["h"], 1⟩ "b").1 "u").2 =
        [Event.resolved 1 "u"] ∧
    (save (save (openAction ⟨false, none, none, none, ["h"], 1⟩ "b").1 "u").1 "v").2 = [] :=
  claim_c7_amended ⟨false, none, none, none, ["h"], 1⟩ "x" "e" "b" "u" "v"
    rfl rfl rfl rfl

/-- C8: when loading the source image fails, the dialog's failure handler
cancels the session: the pending promise is rejected with an error message
that carries the attempted URL (the message is the template literal
interpolating the URL), every tracked blob URL is revoked, and afterwards the
tracked resource-handle set is empty. -/
theorem claim_c8_load_failure (s : StoreState) (p : Nat) (url : String)
    (hj : s.pendingReject = some p) :
    (handleLoadFailure s url).2 =
      Event.rejected p ("Failed to load image from URL: " ++ url)
        :: s.blobUrls.map Event.revoked ∧
    (handleLoadFailure s url).1.blobUrls = [] ∧
    (handleLoadFailure s url).1.isOpen = false ∧
    (handleLoadFailure s url).1.pendingResolve = none ∧
    (handleLoadFailure s url).1.pendingReject = none := by
  simp [handleLoadFailure, cancel, loadFailureMessage, revokeBlobUrls, hj]

/-- C8, witnessed at a concrete open session (promise 0 pending, one tracked
handle) whose image at URL "pic.png" fails to load. -/
theorem claim_c8_load_failure_witness :
    (handleLoadFailure ⟨true, some "pic.png", some 0, some 0, ["h"], 1⟩ "pic.png").2 =
      Event.rejected 0 ("Failed to load image from URL: " ++ "pic.png")
        :: (["h"] : List String).map Event.revoked ∧
    (handleLoadFailure ⟨true, some "pic.png", some 0, some 0, ["h"], 1⟩
        "pic.png").1.blobUrls = [] ∧
    (handleLoadFailure ⟨true, some "pic.png", some 0, some 0, ["h"], 1⟩
        "pic.png").1.isOpen = false ∧
    (handleLoadFailure ⟨true, some "pic.png", some 0, some 0, ["h"], 1⟩
        "pic.png").1.pendingResolve = none ∧
    (handleLoadFailure ⟨true, some "pic.png", some 0, some 0, ["h"], 1⟩
        "pic.png").1.pendingReject = none :=
  claim_c8_load_failure ⟨true, some "pic.png", some 0, some 0, ["h"], 1⟩ 0 "pic.png" rfl

/-- C9: `revokeBlobUrls` is idempotent and safe on an empty set: after any
call the tracked blob-URL set is empty, and a second consecutive call leaves
the state unchanged and emits no event (each individual revocation is wrapped
in try/catch in the source, so no call can raise). -/
theorem claim_c9_revoke_idempotent (s : StoreState) :
    (revokeBlobUrls s).1.blobUrls = [] ∧
    revokeBlobUrls (revokeBlobUrls s).1 = ((revokeBlobUrls s).1, []) :=
  ⟨rfl, rfl⟩

/-- C10: `close` on an Open session with a pending continuation transitions to
Closed, clears both continuations without invoking either (it emits no
settlement event), leaves the tracked blob-URL set untouched, and the
caller's promise never settles afterwards: no subsequent sequence of store
actions ever emits a settlement of it. -/
theorem claim_c10_close (s : StoreState) (p q : Nat)
    (hOpen : s.isOpen = true) (hr : s.pendingResolve = some p)
    (hj : s.pendingReject = some q)
    (hp : p < s.nextPromiseId) (hq : q < s.nextPromiseId) :
    (close s).2 = [] ∧
    (close s).1.isOpen = false ∧
    (close s).1.pendingResolve = none ∧
    (close s).1.pendingReject = none ∧
    (close s).1.blobUrls = s.blobUrls ∧
    ∀ acts : List Action, ∀ e ∈ (run (close s).1 acts).2,
      settlesB e p = false ∧ settlesB e q = false := by
  refine ⟨rfl, rfl, rfl, rfl, rfl, ?_⟩
  intro acts e he
  constructor
  · exact run_no_settle p acts (close s).1
      ⟨by simp [close], by simp [close], by simpa [close] using hp⟩ e he
  · exact run_no_settle q acts (close s).1
      ⟨by simp [close], by simp [close], by simpa [close] using hq⟩ e he

/-- C10, witnessed at the concrete open session created by `open "a"` from
the initial store (promise 0 pending). -/
theorem claim_c10_close_witness :
    (close ⟨true, some "a", some 0, some 0, [], 1⟩).2 = [] ∧
    (close ⟨true, some "a", some 0, some 0, [], 1⟩).1.isOpen = false ∧
    (close ⟨true, some "a", some 0, some 0, [], 1⟩).1.pendingResolve = none ∧
    (close ⟨true, some "a", some 0, some 0, [], 1⟩).1.pendingReject = none ∧
    (close ⟨true, some "a", some 0, some 0, [], 1⟩).1.blobUrls = [] ∧
    ∀ acts : List Action,
      ∀ e ∈ (run (close ⟨true, some "a", some 0, some 0, [], 1⟩).1 acts).2,
        settlesB e 0 = false ∧ settlesB e 0 = false :=
  claim_c10_close ⟨true, some "a", some 0, some 0, [], 1⟩ 0 0 rfl rfl rfl
    (by decide) (by decide)

/-!
Part 2: the geometry mapper (the crop-rect computation inside `handleSave`,
src/unnamed/part_005).  The source computes, from the selection and image
bounding rects, `relX/relY` (selection relative to the image), the per-axis
scale factors `scaleX = naturalWidth / imageRect.width`,
`scaleY = naturalHeight / imageRect.height`, and the clamped crop rect
`cropX = max(0, relX*scaleX)`,
`cropWidth = min(relWidth*scaleX, naturalWidth - cropX)` (symmetric for Y).
There is no check that the rendered width/height are non-zero, so the model
of JS numbers must cover division by zero: `JsNum` is an exact-rational model
of an IEEE double (finite values are rationals, so the finite rounding of
doubles is not modelled — the spec states its formulas over exact reals),
with NaN and the two infinities, and with JS semantics for the operators the
code uses (`-`, `*`, `/`, `Math.max`, `Math.min`).  The unsigned zero stands
for JS +0.
-/

/-- A JS number: NaN, an infinity, or a finite value (modelled exactly as a
rational). -/
inductive JsNum where
  | nan
  | posInf
  | negInf
  | num (q : ℚ)
deriving DecidableEq

/-- JS subtraction. -/
def jsSub : JsNum → JsNum → JsNum
  | .nan, _ => .nan
  | _, .nan => .nan
  | .posInf, .posInf => .nan
  | .posInf, _ => .posInf
  | .negInf, .negInf => .nan
  | .negInf, _ => .negInf
  | .num _, .posInf => .negInf
  | .num _, .negInf => .posInf
  | .num a, .num b => .num (a - b)

/-- JS multiplication. -/
def jsMul : JsNum → JsNum → JsNum
  | .nan, _ => .nan
  | _, .nan => .nan
  | .posInf, .posInf => .posInf
  | .posInf, .negInf => .negInf
  | .negInf, .posInf => .negInf
  | .negInf, .negInf => .posInf
  | .posInf, .num b => if 0 < b then .posInf else if b < 0 then .negInf else .nan
  | .negInf, .num b => if 0 < b then .negInf else if b < 0 then .posInf else .nan
  | .num a, .posInf => if 0 < a then .posInf else if a < 0 then .negInf else .nan
  | .num a, .negInf => if 0 < a then .negInf else if a < 0 then .posInf else .nan
  | .num a, .num b => .num (a * b)

/-- JS division; a finite value divided by zero is a signed infinity (zero is
+0 here), and 0/0 is NaN. -/
def jsDiv : JsNum → JsNum → JsNum
  | .nan, _ => .nan
  | _, .nan => .nan
  | .posInf, .posInf => .nan
  | .posInf, .negInf => .nan
  | .negInf, .posInf => .nan
  | .negInf, .negInf => .nan
  | .posInf, .num b => if b < 0 then .negInf else .posInf
  | .negInf, .num b => if b < 0 then .posInf else .negInf
  | .num _, .posInf => .num 0
  | .num _, .negInf => .num 0
  | .num a, .num b =>
      if b = 0 then (if 0 < a then .posInf else if a < 0 then .negInf else .nan)
      else .num (a / b)

/-- JS `Math.max` (NaN-propagating). -/
def jsMax : JsNum → JsNum → JsNum
  | .nan, _ => .nan
  | _, .nan => .nan
  | .posInf, _ => .posInf
  | _, .posInf => .posInf
  | .negInf, x => x
  | x, .negInf => x
  | .num a, .num b => .num (max a b)

/-- JS `Math.min` (NaN-propagating). -/
def jsMin : JsNum → JsNum → JsNum
  | .nan, _ => .nan
  | _, .nan => .nan
  | .negInf, _ => .negInf
  | _, .negInf => .negInf
  | .posInf, x => x
  | x, .posInf => x
  | .num a, .num b => .num (min a b)

/-- Inputs of the crop-rect computation: the selection element's bounding
rect, the image element's bounding rect (its width/height are the rendered
size), and the image's natural size.  `getBoundingClientRect` and
`naturalWidth`/`naturalHeight` always yield finite numbers, so the inputs are
rationals. -/
structure GeomInput where
  selLeft : ℚ
  selTop : ℚ
  selWidth : ℚ
  selHeight : ℚ
  imgLeft : ℚ
  imgTop : ℚ
  imgWidth : ℚ
  imgHeight : ℚ
  naturalWidth : ℚ
  naturalHeight : ℚ
deriving DecidableEq

/-- The values the computation binds: the two scale factors and the crop
rect. -/
structure GeomResult where
  scaleX : JsNum
  scaleY : JsNum
  cropX : JsNum
  cropY : JsNum
  cropWidth : JsNum
  cropHeight : JsNum
deriving DecidableEq

/-- The crop-rect computation of `handleSave` (src/unnamed/part_005): relative
selection coordinates, per-axis scale factors, then the clamped crop rect.
The source performs no zero check on the rendered size before dividing. -/
def computeCropRect (g : GeomInput) : GeomResult :=
  let relX := jsSub (.num g.selLeft) (.num g.imgLeft)
  let relY := jsSub (.num g.selTop) (.num g.imgTop)
  let relWidth := JsNum.num g.selWidth
  let relHeight := JsNum.num g.selHeight
  let scaleX := jsDiv (.num g.naturalWidth) (.num g.imgWidth)
  let scaleY := jsDiv (.num g.naturalHeight) (.num g.imgHeight)
  let cropX := jsMax (.num 0) (jsMul relX scaleX)
  let cropY := jsMax (.num 0) (jsMul relY scaleY)
  let cropWidth := jsMin (jsMul relWidth scaleX) (jsSub (.num g.naturalWidth) cropX)
  let cropHeight := jsMin (jsMul relHeight scaleY) (jsSub (.num g.naturalHeight) cropY)
  ⟨scaleX, scaleY, cropX, cropY, cropWidth, cropHeight⟩

theorem computeCropRect_fin (g : GeomInput)
    (hw : g.imgWidth ≠ 0) (hh : g.imgHeight ≠ 0) :
    computeCropRect g =
      ⟨.num (g.naturalWidth / g.imgWidth),
       .num (g.naturalHeight / g.imgHeight),
       .num (max 0 ((g.selLeft - g.imgLeft) * (g.naturalWidth / g.imgWidth))),
       .num (max 0 ((g.selTop - g.imgTop) * (g.naturalHeight / g.imgHeight))),
       .num (min (g.selWidth * (g.naturalWidth / g.imgWidth))
         (g.naturalWidth - max 0 ((g.selLeft - g.imgLeft) * (g.naturalWidth / g.imgWidth)))),
       .num (min (g.selHeight * (g.naturalHeight / g.imgHeight))
         (g.naturalHeight -
           max 0 ((g.selTop - g.imgTop) * (g.naturalHeight / g.imgHeight))))⟩ := by
  simp [computeCropRect, jsSub, jsDiv, jsMul, jsMax, jsMin, hw, hh]

/-- C3: with positive rendered width/height, the geometry mapper computes
exactly `cropX = max(0, selX*scaleX)`,
`cropWidth = min(selWidth*scaleX, naturalWidth - cropX)` (symmetric for Y),
with the two axes scaled independently by `naturalWidth / renderedWidth` and
`naturalHeight / renderedHeight`; under the interaction engine's input
invariant (non-negative natural size, non-negative selection size, selection
contained in the rendered bounds) the resulting rect is contained in
`[0, naturalWidth] x [0, naturalHeight]`; and the rect computed as
x = 995, w = 20 against naturalWidth 1000 (unit scale) is clamped to
x = 995, w = 5 — the width is shrunk, x is not shifted. -/
theorem claim_c3_geometry (g : GeomInput)
    (hw : 0 < g.imgWidth) (hh : 0 < g.imgHeight) :
    computeCropRect g =
      ⟨.num (g.naturalWidth / g.imgWidth),
       .num (g.naturalHeight / g.imgHeight),
       .num (max 0 ((g.selLeft - g.imgLeft) * (g.naturalWidth / g.imgWidth))),
       .num (max 0 ((g.selTop - g.imgTop) * (g.naturalHeight / g.imgHeight))),
       .num (min (g.selWidth * (g.naturalWidth / g.imgWidth))
         (g.naturalWidth - max 0 ((g.selLeft - g.imgLeft) * (g.naturalWidth / g.imgWidth)))),
       .num (min (g.selHeight * (g.naturalHeight / g.imgHeight))
         (g.naturalHeight -
           max 0 ((g.selTop - g.imgTop) * (g.naturalHeight / g.imgHeight))))⟩ ∧
    (0 ≤ g.naturalWidth → 0 ≤ g.naturalHeight →
     0 ≤ g.selWidth → 0 ≤ g.selHeight →
     g.selLeft - g.imgLeft + g.selWidth ≤ g.imgWidth →
     g.selTop - g.imgTop + g.selHeight ≤ g.imgHeight →
     ∃ cx cy cw ch : ℚ,
       (computeCropRect g).cropX = .num cx ∧
       (computeCropRect g).cropY = .num cy ∧
       (computeCropRect g).cropWidth = .num cw ∧
       (computeCropRect g).cropHeight = .num ch ∧
       0 ≤ cx ∧ 0 ≤ cw ∧ cx + cw ≤ g.naturalWidth ∧
       0 ≤ cy ∧ 0 ≤ ch ∧ cy + ch ≤ g.naturalHeight) ∧
    computeCropRect ⟨995, 0, 20, 10, 0, 0, 1000, 100, 1000, 100⟩ =
      ⟨.num 1, .num 1, .num 995, .num 0, .num 5, .num 10⟩ := by
  have heq := computeCropRect_fin g (ne_of_gt hw) (ne_of_gt hh)
  refine ⟨heq, ?_, ?_⟩
  case refine_2 =>
    rw [computeCropRect_fin _ (by norm_num) (by norm_num)]
    norm_num [max_def, min_def]
  intro hnw hnh hsw hsh hbx hby
  have hsX : 0 ≤ g.naturalWidth / g.imgWidth := div_nonneg hnw hw.le
  have hsY : 0 ≤ g.naturalHeight / g.imgHeight := div_nonneg hnh hh.le
  refine ⟨_, _, _, _, by rw [heq], by rw [heq], by rw [heq], by rw [heq],
    ?_, ?_, ?_, ?_, ?_, ?_⟩
  · exact le_max_left 0 _
  · refine le_min (mul_nonneg hsw hsX) ?_
    have h1 : (g.selLeft - g.imgLeft) * (g.naturalWidth / g.imgWidth) ≤
        g.imgWidth * (g.naturalWidth / g.imgWidth) := by
      apply mul_le_mul_of_nonneg_right _ hsX
      linarith
    have h2 : g.imgWidth * (g.naturalWidth / g.imgWidth) = g.naturalWidth := by
      field_simp
    have := max_le hnw (h2 ▸ h1)
    linarith
  · have := min_le_right (g.selWidth * (g.naturalWidth / g.imgWidth))
      (g.naturalWidth - max 0 ((g.selLeft - g.imgLeft) * (g.naturalWidth / g.imgWidth)))
    linarith
  · exact le_max_left 0 _
  · refine le_min (mul_nonneg hsh hsY) ?_
    have h1 : (g.selTop - g.imgTop) * (g.naturalHeight / g.imgHeight) ≤
        g.imgHeight * (g.naturalHeight / g.imgHeight) := by
      apply mul_le_mul_of_nonneg_right _ hsY
      linarith
    have h2 : g.imgHeight * (g.naturalHeight / g.imgHeight) = g.naturalHeight := by
      field_simp
    have := max_le hnh (h2 ▸ h1)
    linarith
  · have := min_le_right (g.selHeight * (g.naturalHeight / g.imgHeight))
      (g.naturalHeight - max 0 ((g.selTop - g.imgTop) * (g.naturalHeight / g.imgHeight)))
    linarith

/-- C3, witnessed at the spec's own scenario (natural 1000x600, rendered
500x300, selection x 100 y 50 w 100 h 60) and, through the third conjunct, at
the clamping scenario x 995 w 20 against naturalWidth 1000. -/
theorem claim_c3_geometry_witness :
    computeCropRect ⟨100, 50, 100, 60, 0, 0, 500, 300, 1000, 600⟩ =
      ⟨.num 2, .num 2, .num 200, .num 100, .num 200, .num 120⟩ ∧
    (∃ cx cy cw ch : ℚ,
      (computeCropRect ⟨100, 50, 100, 60, 0, 0, 500, 300, 1000, 600⟩).cropX = .num cx ∧
      (computeCropRect ⟨100, 50, 100, 60, 0, 0, 500, 300, 1000, 600⟩).cropY = .num cy ∧
      (computeCropRect ⟨100, 50, 100, 60, 0, 0, 500, 300, 1000, 600⟩).cropWidth = .num cw ∧
      (computeCropRect ⟨100, 50, 100, 60, 0, 0, 500, 300, 1000, 600⟩).cropHeight = .num ch ∧
      0 ≤ cx ∧ 0 ≤ cw ∧ cx + cw ≤ (1000 : ℚ) ∧
      0 ≤ cy ∧ 0 ≤ ch ∧ cy + ch ≤ (600 : ℚ)) ∧
    computeCropRect ⟨995, 0, 20, 10, 0, 0, 1000, 100, 1000, 100⟩ =
      ⟨.num 1, .num 1, .num 995, .num 0, .num 5, .num 10⟩ := by
  have h := claim_c3_geometry ⟨100, 50, 100, 60, 0, 0, 500, 300, 1000, 600⟩
    (by norm_num) (by norm_num)
  refine ⟨by rw [h.1]; norm_num [max_def, min_def], ?_, h.2.2⟩
  exact h.2.1 (by norm_num) (by norm_num) (by norm_num) (by norm_num)
    (by norm_num) (by norm_num)

/-- C4 counterexample: with rendered width and height both zero (and natural
size 1000x800, selection rect at x 10 y 5 w 50 h 40), the crop-rect
computation does not fail at all — there is no `GeometryUnavailable` (or any
other) error path — it performs the divisions by zero, which in JS yield
+Infinity scale factors, and produces a (nonsensical) rect with infinite
coordinates. -/
theorem claim_c4_counterexample :
    computeCropRect ⟨10, 5, 50, 40, 0, 0, 0, 0, 1000, 800⟩ =
      ⟨.posInf, .posInf, .posInf, .posInf, .negInf, .negInf⟩ := by
  norm_num [computeCropRect, jsSub, jsDiv, jsMul, jsMax, jsMin]

/-- C4 (amended): the source has no zero check on the rendered size: when the
rendered width (resp. height) is zero and the natural width (resp. height) is
positive, the division is performed anyway and the scale factor is +Infinity
(JS division-by-zero semantics); the computation never fails with
`GeometryUnavailable` — that error does not exist in the code. -/
theorem claim_c4_amended (g : GeomInput) :
    (g.imgWidth = 0 → 0 < g.naturalWidth →
      (computeCropRect g).scaleX = JsNum.posInf) ∧
    (g.imgHeight = 0 → 0 < g.naturalHeight →
      (computeCropRect g).scaleY = JsNum.posInf) := by
  constructor
  · intro hw hn
    simp [computeCropRect, jsDiv, hw, hn]
  · intro hh hn
    simp [computeCropRect, jsDiv, hh, hn]

/-- C4 amended, witnessed at concrete inputs with a zero rendered width
(resp. height). -/
theorem claim_c4_amended_witness :
    (computeCropRect ⟨10, 5, 50, 40, 0, 0, 0, 3, 1000, 800⟩).scaleX = JsNum.posInf ∧
    (computeCropRect ⟨10, 5, 50, 40, 0, 0, 4, 0, 1000, 800⟩).scaleY = JsNum.posInf :=
  ⟨(claim_c4_amended ⟨10, 5, 50, 40, 0, 0, 0, 3, 1000, 800⟩).1 rfl (by norm_num),
   (claim_c4_amended ⟨10, 5, 50, 40, 0, 0, 4, 0, 1000, 800⟩).2 rfl (by norm_num)⟩

/-!
Part 3: the compositor (the rotation/flip export path of `handleSave` in the
store-connected dialog variant, src/unnamed/part_005, and the direct-crop
path of the standalone variant).  We embed the canvas 2D context as a state
machine: a current affine transform (the canvas `[a b c d e f]` convention,
mapping a point `(x, y)` to `(a*x + c*y + e, b*x + d*y + f)`), a save/restore
stack, and the list of issued `drawImage` commands, each recorded with the
transform in force when it was issued.  `translate`/`rotate`/`scale`
post-multiply the current transform, exactly as the canvas API does.  The
rotation matrix is parametrised by the values `Math.cos(rotationRad)` and
`Math.sin(rotationRad)` return (rationals standing for the doubles), since
the claims are about how the code composes and sizes things, not about the
trigonometry itself.
-/

/-- A 2D affine transform in canvas `[a b c d e f]` form. -/
structure Affine where
  a : ℚ
  b : ℚ
  c : ℚ
  d : ℚ
  e : ℚ
  f : ℚ
deriving DecidableEq

/-- The identity transform. -/
def Affine.idT : Affine := ⟨1, 0, 0, 1, 0, 0⟩

/-- Composition: `comp m n` applies `n` first, then `m`. -/
def Affine.comp (m n : Affine) : Affine :=
  ⟨m.a * n.a + m.c * n.b,
   m.b * n.a + m.d * n.b,
   m.a * n.c + m.c * n.d,
   m.b * n.c + m.d * n.d,
   m.a * n.e + m.c * n.f + m.e,
   m.b * n.e + m.d * n.f + m.f⟩

theorem Affine.comp_assoc (m n k : Affine) :
    (m.comp n).comp k = m.comp (n.comp k) := by
  simp only [Affine.comp, Affine.mk.injEq]
  refine ⟨by ring, by ring, by ring, by ring, by ring, by ring⟩

theorem Affine.idT_comp (m : Affine) : Affine.idT.comp m = m := by
  cases m
  simp only [Affine.comp, Affine.idT, Affine.mk.injEq]
  refine ⟨by ring, by ring, by ring, by ring, by ring, by ring⟩

theorem Affine.comp_idT (m : Affine) : m.comp Affine.idT = m := by
  cases m
  simp only [Affine.comp, Affine.idT, Affine.mk.injEq]
  refine ⟨by ring, by ring, by ring, by ring, by ring, by ring⟩

/-- The matrix of `ctx.translate(x, y)`. -/
def translateM (x y : ℚ) : Affine := ⟨1, 0, 0, 1, x, y⟩

/-- The matrix of `ctx.rotate(θ)`, given the values of cos θ and sin θ. -/
def rotateM (cosv sinv : ℚ) : Affine := ⟨cosv, sinv, -sinv, cosv, 0, 0⟩

/-- The matrix of `ctx.scale(x, y)`. -/
def scaleM (x y : ℚ) : Affine := ⟨x, 0, 0, y, 0, 0⟩

theorem rotateM_one_zero : rotateM 1 0 = Affine.idT := by
  simp [rotateM, Affine.idT]

/-- Which drawable a `drawImage` call reads from: the loaded source image or
the intermediate (temp) canvas. -/
inductive DrawSource where
  | sourceImage
  | tempCanvas
deriving DecidableEq

/-- One recorded `drawImage(src, sx, sy, sw, sh, dx, dy, dw, dh)` call,
together with the transform in force when it was issued. -/
structure DrawCmd where
  transform : Affine
  src : DrawSource
  sx : ℚ
  sy : ℚ
  sw : ℚ
  sh : ℚ
  dx : ℚ
  dy : ℚ
  dw : ℚ
  dh : ℚ
deriving DecidableEq

/-- A canvas 2D context: current transform, save/restore stack, issued draw
commands. -/
structure Ctx where
  transform : Affine
  saved : List Affine
  draws : List DrawCmd
deriving DecidableEq

/-- A fresh context (identity transform). -/
def ctxNew : Ctx := ⟨Affine.idT, [], []⟩

/-- `ctx.save()`. -/
def ctxSave (c : Ctx) : Ctx := { c with saved := c.transform :: c.saved }

/-- `ctx.restore()` (a no-op on an empty stack, as in the canvas API). -/
def ctxRestore (c : Ctx) : Ctx :=
  match c.saved with
  | [] => c
  | t :: r => ⟨t, r, c.draws⟩

/-- `ctx.translate(x, y)`. -/
def ctxTranslate (c : Ctx) (x y : ℚ) : Ctx :=
  { c with transform := c.transform.comp (translateM x y) }

/-- `ctx.rotate(θ)`, given cos θ and sin θ. -/
def ctxRotate (c : Ctx) (cosv sinv : ℚ) : Ctx :=
  { c with transform := c.transform.comp (rotateM cosv sinv) }

/-- `ctx.scale(x, y)`. -/
def ctxScale (c : Ctx) (x y : ℚ) : Ctx :=
  { c with transform := c.transform.comp (scaleM x y) }

/-- `ctx.drawImage(src, sx, sy, sw, sh, dx, dy, dw, dh)`: records the call
with the current transform. -/
def ctxDrawImage (c : Ctx) (src : DrawSource) (sx sy sw sh dx dy dw dh : ℚ) : Ctx :=
  { c with draws := c.draws ++ [⟨c.transform, src, sx, sy, sw, sh, dx, dy, dw, dh⟩] }

/-- What the compositor builds: the intermediate (bounding) canvas size and
its draw commands, and the final canvas size and its draw commands. -/
structure CompositeResult where
  boundingWidth : ℤ
  boundingHeight : ℤ
  tempDraws : List DrawCmd
  finalWidth : ℚ
  finalHeight : ℚ
  finalDraws : List DrawCmd
deriving DecidableEq

/-- The compositor of `handleSave` (store-connected dialog variant of
src/unnamed/part_005): bounding-box sizing from `|cos θ|`/`|sin θ|`, a
save/translate/(rotate if non-zero)/flip/drawImage/restore sequence on the
intermediate canvas, then a copy of the centred crop-sized window into the
final canvas.  `rotation` is `api.rotation || 0` in degrees; `cosv`/`sinv`
are the values `Math.cos`/`Math.sin` return for the rotation in radians;
`flipH`/`flipV` are `api.flip?.horizontal` and `api.flip?.vertical`. -/
def composite (cropX cropY cropWidth cropHeight rotation cosv sinv : ℚ)
    (flipH flipV : Bool) : CompositeResult :=
  let cosValue := |cosv|
  let sinValue := |sinv|
  let boundingWidth : ℤ := ⌈cropWidth * cosValue + cropHeight * sinValue⌉
  let boundingHeight : ℤ := ⌈cropWidth * sinValue + cropHeight * cosValue⌉
  let t0 := ctxSave ctxNew
  let t1 := ctxTranslate t0 ((boundingWidth : ℚ) / 2) ((boundingHeight : ℚ) / 2)
  let t2 := if rotation ≠ 0 then ctxRotate t1 cosv sinv else t1
  let t3 := if flipH then ctxScale t2 (-1) 1 else t2
  let t4 := if flipV then ctxScale t3 1 (-1) else t3
  let t5 := ctxDrawImage t4 DrawSource.sourceImage cropX cropY cropWidth cropHeight
    (-cropWidth / 2) (-cropHeight / 2) cropWidth cropHeight
  let t6 := ctxRestore t5
  let offsetX := ((boundingWidth : ℚ) - cropWidth) / 2
  let offsetY := ((boundingHeight : ℚ) - cropHeight) / 2
  let f0 := ctxDrawImage ctxNew DrawSource.tempCanvas offsetX offsetY cropWidth cropHeight
    0 0 cropWidth cropHeight
  ⟨boundingWidth, boundingHeight, t6.draws, cropWidth, cropHeight, f0.draws⟩

/-- What the standalone dialog variant builds on save: a canvas of exactly the
crop size and its draw commands. -/
structure DirectResult where
  width : ℚ
  height : ℚ
  draws : List DrawCmd
deriving DecidableEq

/-- The direct-crop export path (standalone dialog variant of
src/unnamed/part_005): `canvas.width = cropWidth`,
`canvas.height = cropHeight`,
`ctx.drawImage(img, cropX, cropY, cropWidth, cropHeight, 0, 0, cropWidth,
cropHeight)` with the default (identity) transform. -/
def directCrop (cropX cropY cropWidth cropHeight : ℚ) : DirectResult :=
  let c0 := ctxDrawImage ctxNew DrawSource.sourceImage cropX cropY cropWidth cropHeight
    0 0 cropWidth cropHeight
  ⟨cropWidth, cropHeight, c0.draws⟩

/-- C5: for every crop rect and transform state the compositor produces an
intermediate surface of size
`boundingWidth = ceil(cropWidth*|cos θ| + cropHeight*|sin θ|)` by
`boundingHeight = ceil(cropWidth*|sin θ| + cropHeight*|cos θ|)`; its single
draw of the crop sub-region of the source happens under the transform
`translate(boundingWidth/2, boundingHeight/2) ∘ rotate(θ) ∘ (horizontal flip
if set) ∘ (vertical flip if set)` — matrix concatenation in that fixed
order — centred (destination `(-cropWidth/2, -cropHeight/2)`) and
size-preserving (destination size = source size); and the centred
`cropWidth x cropHeight` window of the intermediate surface is copied, under
the identity transform, into a final surface of exactly `cropWidth x
cropHeight`.  The hypothesis ties the cosine/sine parameters at rotation 0 to
their actual values there, which is what makes the code's skipped `rotate`
call equal to an applied `rotate(0)`. -/
theorem claim_c5_compositor (cropX cropY cropWidth cropHeight rotation cosv sinv : ℚ)
    (flipH flipV : Bool) (hzero : rotation = 0 → cosv = 1 ∧ sinv = 0) :
    composite cropX cropY cropWidth cropHeight rotation cosv sinv flipH flipV =
      ⟨⌈cropWidth * |cosv| + cropHeight * |sinv|⌉,
       ⌈cropWidth * |sinv| + cropHeight * |cosv|⌉,
       [⟨(translateM ((⌈cropWidth * |cosv| + cropHeight * |sinv|⌉ : ℚ) / 2)
            ((⌈cropWidth * |sinv| + cropHeight * |cosv|⌉ : ℚ) / 2)).comp
           ((rotateM cosv sinv).comp
            ((if flipH then scaleM (-1) 1 else Affine.idT).comp
             (if flipV then scaleM 1 (-1) else Affine.idT))),
         DrawSource.sourceImage, cropX, cropY, cropWidth, cropHeight,
         -cropWidth / 2, -cropHeight / 2, cropWidth, cropHeight⟩],
       cropWidth, cropHeight,
       [⟨Affine.idT, DrawSource.tempCanvas,
         ((⌈cropWidth * |cosv| + cropHeight * |sinv|⌉ : ℚ) - cropWidth) / 2,
         ((⌈cropWidth * |sinv| + cropHeight * |cosv|⌉ : ℚ) - cropHeight) / 2,
         cropWidth, cropHeight, 0, 0, cropWidth, cropHeight⟩]⟩ := by
  by_cases hr : rotation = 0
  · obtain ⟨hc, hs⟩ := hzero hr
    subst hr hc hs
    cases flipH <;> cases flipV <;>
      simp [composite, ctxNew, ctxSave, ctxTranslate, ctxRotate, ctxScale,
        ctxDrawImage, ctxRestore, rotateM_one_zero, Affine.idT_comp, Affine.comp_idT,
        Affine.comp_assoc]
  · cases flipH <;> cases flipV <;>
      simp [composite, hr, ctxNew, ctxSave, ctxTranslate, ctxRotate, ctxScale,
        ctxDrawImage, ctxRestore, Affine.idT_comp, Affine.comp_idT, Affine.comp_assoc]

/-- C5, witnessed at a concrete crop rect (10, 20, 30, 40) rotated by 90
degrees (cos 0, sin 1) with a horizontal flip. -/
theorem claim_c5_compositor_witness :
    composite 10 20 30 40 90 0 1 true false =
      ⟨⌈(30 : ℚ) * |(0 : ℚ)| + (40 : ℚ) * |(1 : ℚ)|⌉,
       ⌈(30 : ℚ) * |(1 : ℚ)| + (40 : ℚ) * |(0 : ℚ)|⌉,
       [⟨(translateM ((⌈(30 : ℚ) * |(0 : ℚ)| + (40 : ℚ) * |(1 : ℚ)|⌉ : ℚ) / 2)
            ((⌈(30 : ℚ) * |(1 : ℚ)| + (40 : ℚ) * |(0 : ℚ)|⌉ : ℚ) / 2)).comp
           ((rotateM 0 1).comp
            ((if true then scaleM (-1) 1 else Affine.idT).comp
             (if false then scaleM 1 (-1) else Affine.idT))),
         DrawSource.sourceImage, 10, 20, 30, 40,
         -(30 : ℚ) / 2, -(40 : ℚ) / 2, 30, 40⟩],
       30, 40,
       [⟨Affine.idT, DrawSource.tempCanvas,
         ((⌈(30 : ℚ) * |(0 : ℚ)| + (40 : ℚ) * |(1 : ℚ)|⌉ : ℚ) - 30) / 2,
         ((⌈(30 : ℚ) * |(1 : ℚ)| + (40 : ℚ) * |(0 : ℚ)|⌉ : ℚ) - 40) / 2,
         30, 40, 0, 0, 30, 40⟩]⟩ :=
  claim_c5_compositor 10 20 30 40 90 0 1 true false (by norm_num)

/-!
Pixel-level semantics, for the bit-identity claim.  A raster is a colour
(or transparent, `none`) at each integer pixel coordinate; canvases start
fully transparent.  The semantics of a recorded `drawImage` is given exactly
for the class of draws the zero-rotation/no-flip paths issue: the transform
is a pure translation, the draw is unscaled (destination size = source size)
and all effective coordinates are integral — there such a draw is a plain
pixel copy.  A draw outside this class (e.g. under a genuine rotation, where
the canvas specification requires resampling) is left uninterpreted (the
destination is returned unchanged); no theorem below evaluates such a draw.
-/

/-- A fully transparent raster. -/
def blankCanvas {C : Type} : ℤ → ℤ → Option C := fun _ _ => none

/-- Pixel effect of one recorded `drawImage` (see the section comment for the
class of draws interpreted exactly). -/
def applyDraw {C : Type} (base src : ℤ → ℤ → Option C) (cmd : DrawCmd) :
    ℤ → ℤ → Option C :=
  fun x y =>
    if cmd.transform.a = 1 ∧ cmd.transform.b = 0 ∧ cmd.transform.c = 0 ∧
       cmd.transform.d = 1 ∧ cmd.dw = cmd.sw ∧ cmd.dh = cmd.sh ∧
       (cmd.transform.e + cmd.dx).den = 1 ∧ (cmd.transform.f + cmd.dy).den = 1 ∧
       cmd.sx.den = 1 ∧ cmd.sy.den = 1 ∧ cmd.sw.den = 1 ∧ cmd.sh.den = 1
    then
      if (cmd.transform.e + cmd.dx).num ≤ x ∧
         x < (cmd.transform.e + cmd.dx).num + cmd.sw.num ∧
         (cmd.transform.f + cmd.dy).num ≤ y ∧
         y < (cmd.transform.f + cmd.dy).num + cmd.sh.num
      then src (cmd.sx.num + (x - (cmd.transform.e + cmd.dx).num))
               (cmd.sy.num + (y - (cmd.transform.f + cmd.dy).num))
      else base x y
    else base x y

/-- Run a list of draw commands reading from `src`, starting from `base`. -/
def runDrawList {C : Type} (src : ℤ → ℤ → Option C) (cmds : List DrawCmd)
    (base : ℤ → ℤ → Option C) : ℤ → ℤ → Option C :=
  cmds.foldl (fun acc cmd => applyDraw acc src cmd) base

/-- The pixels the compositor produces: the intermediate canvas is drawn from
the source image, and the final canvas from the intermediate canvas. -/
def runComposite {C : Type} (r : CompositeResult) (img : ℤ → ℤ → Option C) :
    ℤ → ℤ → Option C :=
  runDrawList (runDrawList img r.tempDraws blankCanvas) r.finalDraws blankCanvas

/-- The pixels the direct-crop path produces. -/
def runDirect {C : Type} (r : DirectResult) (img : ℤ → ℤ → Option C) :
    ℤ → ℤ → Option C :=
  runDrawList img r.draws blankCanvas

theorem composite_zero_rotation (cropX cropY cropWidth cropHeight : ℚ) :
    composite cropX cropY cropWidth cropHeight 0 1 0 false false =
      ⟨⌈cropWidth⌉, ⌈cropHeight⌉,
       [⟨translateM ((⌈cropWidth⌉ : ℤ) / 2 : ℚ) ((⌈cropHeight⌉ : ℤ) / 2 : ℚ),
         DrawSource.sourceImage, cropX, cropY, cropWidth, cropHeight,
         -cropWidth / 2, -cropHeight / 2, cropWidth, cropHeight⟩],
       cropWidth, cropHeight,
       [⟨Affine.idT, DrawSource.tempCanvas,
         (((⌈cropWidth⌉ : ℤ) : ℚ) - cropWidth) / 2,
         (((⌈cropHeight⌉ : ℤ) : ℚ) - cropHeight) / 2,
         cropWidth, cropHeight, 0, 0, cropWidth, cropHeight⟩]⟩ := by
  simp [composite, ctxNew, ctxSave, ctxTranslate, ctxRotate, ctxScale,
    ctxDrawImage, ctxRestore, Affine.idT_comp, Affine.comp_idT]

theorem applyDraw_translation {C : Type} (base src : ℤ → ℤ → Option C)
    (s : DrawSource) (sx sy dzx dzy : ℤ) (sw sh : ℕ) (e f dx dy : ℚ)
    (he : e + dx = (dzx : ℚ)) (hf : f + dy = (dzy : ℚ)) :
    applyDraw base src ⟨⟨1, 0, 0, 1, e, f⟩, s, (sx : ℚ), (sy : ℚ), (sw : ℚ), (sh : ℚ),
        dx, dy, (sw : ℚ), (sh : ℚ)⟩ =
      fun x y =>
        if dzx ≤ x ∧ x < dzx + (sw : ℤ) ∧ dzy ≤ y ∧ y < dzy + (sh : ℤ)
        then src (sx + (x - dzx)) (sy + (y - dzy))
        else base x y := by
  funext x y
  simp only [applyDraw, he, hf]
  rw [if_pos]
  · simp
  · simp

/-- C6: with rotation 0 and no flips, the general compositor path and the
direct-crop path agree bit-for-bit on every natural-space crop rect on the
pixel grid (integer origin, natural-number size): the final canvas has the
same size in both paths and every pixel of the two outputs is identical, for
every source image. -/
theorem claim_c6_zero_rotation_direct {C : Type} (img : ℤ → ℤ → Option C)
    (cropX cropY : ℤ) (cropWidth cropHeight : ℕ) :
    (composite (cropX : ℚ) (cropY : ℚ) (cropWidth : ℚ) (cropHeight : ℚ)
        0 1 0 false false).finalWidth =
      (directCrop (cropX : ℚ) (cropY : ℚ) (cropWidth : ℚ) (cropHeight : ℚ)).width ∧
    (composite (cropX : ℚ) (cropY : ℚ) (cropWidth : ℚ) (cropHeight : ℚ)
        0 1 0 false false).finalHeight =
      (directCrop (cropX : ℚ) (cropY : ℚ) (cropWidth : ℚ) (cropHeight : ℚ)).height ∧
    runComposite (composite (cropX : ℚ) (cropY : ℚ) (cropWidth : ℚ) (cropHeight : ℚ)
        0 1 0 false false) img =
      runDirect (directCrop (cropX : ℚ) (cropY : ℚ) (cropWidth : ℚ) (cropHeight : ℚ)) img := by
  refine ⟨rfl, rfl, ?_⟩
  rw [composite_zero_rotation]
  simp only [runComposite, runDirect, runDrawList, List.foldl, directCrop,
    ctxDrawImage, ctxNew, Int.ceil_natCast, translateM, Affine.idT]
  have h1 : ((cropWidth : ℤ) / 2 : ℚ) + -(cropWidth : ℚ) / 2 = ((0 : ℤ) : ℚ) := by
    push_cast
    ring
  have h2 : ((cropHeight : ℤ) / 2 : ℚ) + -(cropHeight : ℚ) / 2 = ((0 : ℤ) : ℚ) := by
    push_cast
    ring
  have h3 : (0 : ℚ) + (0 : ℚ) = ((0 : ℤ) : ℚ) := by norm_num
  have h4 : (((cropWidth : ℤ) : ℚ) - (cropWidth : ℚ)) / 2 = (((0 : ℤ) : ℚ)) := by
    push_cast
    ring
  have h5 : (((cropHeight : ℤ) : ℚ) - (cropHeight : ℚ)) / 2 = (((0 : ℤ) : ℚ)) := by
    push_cast
    ring
  rw [applyDraw_translation blankCanvas img DrawSource.sourceImage cropX cropY 0 0
    cropWidth cropHeight _ _ _ _ h1 h2]
  rw [h4, h5]
  rw [applyDraw_translation blankCanvas _ DrawSource.tempCanvas 0 0 0 0
    cropWidth cropHeight _ _ _ _ h3 h3]
  rw [applyDraw_translation blankCanvas img DrawSource.sourceImage cropX cropY 0 0
    cropWidth cropHeight _ _ _ _ h3 h3]
  funext x y
  simp only [zero_add, sub_zero]
  by_cases hin : 0 ≤ x ∧ x < (cropWidth : ℤ) ∧ 0 ≤ y ∧ y < (cropHeight : ℤ)
  · simp [hin]
  · simp [hin, blankCanvas]

end ImageResizer
